import Mathlib

/-!
# Verification of the dubbo-build stub generation engine

Shallow embedding of the `dubbo-build` code generator
(`src/dubbo-build/src/prost.rs`, `src/dubbo-build/src/client.rs`):
the IR adapter (`DubboService` / `DubboMethod`), the type path resolver
(`request_response_name` / its inner `convert_type` closure), the client
stub emitter (`generate_methods` and the four shape generators), and the
generation orchestrator (`Builder`, `configure`, `SvcGenerator`).

External library collaborators (`syn`, `prettyplease`, `prost-build`'s
parser) are modelled: `syn::Path` parsing is embedded as an executable
grammar over character lists (identifier segments separated by `::`,
optional leading `::`), and the finalization parse/format pair is taken
as a parameter of `finalize`.
-/

namespace DubboBuild

/-! ## Model of `syn::Path` parsing

`syn::parse_str::<syn::Path>` accepts (for the plain, generics-free names
this generator feeds it) an optional leading `::` followed by Rust
identifier segments separated by `::`.  We embed this as an executable
grammar on `List Char`.
-/

def isIdentStart (c : Char) : Bool := c.isAlpha || c == '_'

def isIdentCont (c : Char) : Bool := c.isAlphanum || c == '_'

/-- A single path segment must be a nonempty Rust identifier. -/
def isIdentSeg : List Char → Bool
  | [] => false
  | c :: cs => isIdentStart c && cs.all isIdentCont

/-- Split a character list on the separator `::`. -/
def splitPath : List Char → List (List Char)
  | [] => [[]]
  | ':' :: ':' :: rest => [] :: splitPath rest
  | c :: rest =>
    match splitPath rest with
    | [] => [[c]]
    | seg :: segs => (c :: seg) :: segs

/-- Join segments back with the `::` separator. -/
def joinSegs : List (List Char) → List Char
  | [] => []
  | [seg] => seg
  | seg :: segs => seg ++ ':' :: ':' :: joinSegs segs

theorem splitPath_ne_nil (l : List Char) : splitPath l ≠ [] := by
  induction l using splitPath.induct with
  | case1 => simp [splitPath]
  | case2 rest ih => simp [splitPath]
  | case3 c rest h ih =>
    simp [splitPath, ih]
  | case4 c rest h seg segs hs ih =>
    simp [splitPath, hs]

theorem joinSegs_cons (c : Char) (s : List Char) (ss : List (List Char)) :
    joinSegs ((c :: s) :: ss) = c :: joinSegs (s :: ss) := by
  cases ss <;> simp [joinSegs]

theorem joinSegs_splitPath (l : List Char) : joinSegs (splitPath l) = l := by
  induction l using splitPath.induct with
  | case1 => simp [splitPath, joinSegs]
  | case2 rest ih =>
    simp only [splitPath]
    cases hs : splitPath rest with
    | nil => exact absurd hs (splitPath_ne_nil rest)
    | cons seg segs =>
      have ih2 : joinSegs (seg :: segs) = rest := by rw [← hs]; exact ih
      simp [joinSegs, ih2]
  | case3 c rest h ih =>
    exact absurd ih (splitPath_ne_nil rest)
  | case4 c rest h seg segs hs ih =>
    simp only [splitPath, hs]
    rw [joinSegs_cons, ← hs, ih]

/-- The structured result of parsing a Rust path (`syn::Path`):
an optional leading `::` and the identifier segments. -/
structure SynPath where
  leadingColon : Bool
  segments : List (List Char)
deriving DecidableEq, Repr

def parsePathChars (l : List Char) : Option SynPath :=
  if l.take 2 = [':', ':'] then
    let segs := splitPath (l.drop 2)
    if segs.all isIdentSeg then some ⟨true, segs⟩ else none
  else
    let segs := splitPath l
    if segs.all isIdentSeg then some ⟨false, segs⟩ else none

def renderPath (p : SynPath) : List Char :=
  (if p.leadingColon then [':', ':'] else []) ++ joinSegs p.segments

def parsePath (s : String) : Option SynPath := parsePathChars s.data

def renderPathStr (p : SynPath) : String := ⟨renderPath p⟩

/-- Parsing is lossless: a successfully parsed path renders back to
exactly the input text. -/
theorem renderPath_of_parse (l : List Char) (p : SynPath)
    (h : parsePathChars l = some p) : renderPath p = l := by
  unfold parsePathChars at h
  by_cases h2 : l.take 2 = [':', ':']
  · rw [if_pos h2] at h
    by_cases hseg : (splitPath (l.drop 2)).all isIdentSeg
    · simp only [hseg, if_pos] at h
      cases h
      simp only [renderPath, if_pos, joinSegs_splitPath]
      rw [← h2]
      exact List.take_append_drop 2 l
    · simp [hseg] at h
  · rw [if_neg h2] at h
    by_cases hseg : (splitPath l).all isIdentSeg
    · simp only [hseg, if_pos] at h
      cases h
      simp [renderPath, joinSegs_splitPath]
    · simp [hseg] at h

/-! ## Emitted token text

The generator works on `proc_macro2::TokenStream` values.  The two ways a
type reference enters the output are kept apart, mirroring the source:
`rust_type.parse::<TokenStream>()` (raw verbatim token text) and
`syn::parse_str::<syn::Path>(..).to_token_stream()` (a structured path).
-/

inductive Tok where
  | raw (text : List Char)
  | path (p : SynPath)
deriving DecidableEq, Repr

def renderTok : Tok → List Char
  | .raw t => t
  | .path p => renderPath p

def renderTokStr (t : Tok) : String := ⟨renderTok t⟩

/-! ## Type path resolver (src/dubbo-build/src/prost.rs) -/

/-- Rust `str::starts_with`, modelled as a prefix test on the character
list. -/
def strStartsWith (s pre : String) : Bool := pre.data.isPrefixOf s.data

/-- `const NON_PATH_TYPE_ALLOWLIST: &[&str] = &["()"];` -/
def NON_PATH_TYPE_ALLOWLIST : List String := ["()"]

/-- `fn is_google_type(proto_type: &str) -> bool` -/
def is_google_type (proto_type : String) : Bool :=
  strStartsWith proto_type ".google.protobuf"

/-- The `convert_type` closure inside
`DubboMethod::request_response_name`.  `.unwrap()` on a failed parse
aborts generation; the abort is modelled as `none`. -/
def convert_type (proto_path : String) (compile_well_known_types : Bool)
    (proto_type rust_type : String) : Option Tok :=
  if (is_google_type proto_type && !compile_well_known_types)
      || strStartsWith rust_type "::"
      || NON_PATH_TYPE_ALLOWLIST.any (fun t => t == rust_type) then
    some (Tok.raw rust_type.data)
  else if strStartsWith rust_type "crate::" then
    (parsePath rust_type).map Tok.path
  else
    (parsePath (proto_path ++ "::" ++ rust_type)).map Tok.path

/-! ## Data model: prost-build service description and the IR adapter -/

/-- `prost_build::Comments`. -/
structure Comments where
  leading_detached : List (List String)
  leading : List String
  trailing : List String
deriving DecidableEq, Repr

/-- `prost_build::Method`.  The `options` field (prost_types
`MethodOptions`) is opaque to this generator; its derived `clone` is a
structural copy, so it is carried as plain data. -/
structure Method where
  name : String
  proto_name : String
  comments : Comments
  input_type : String
  output_type : String
  input_proto_type : String
  output_proto_type : String
  options : String
  client_streaming : Bool
  server_streaming : Bool
deriving DecidableEq, Repr

/-- `prost_build::Service`. -/
structure Service where
  name : String
  proto_name : String
  package : String
  comments : Comments
  methods : List Method
  options : String
deriving DecidableEq, Repr

structure DubboMethod where
  inner : Method
deriving DecidableEq, Repr

structure DubboService where
  inner : Service
deriving DecidableEq, Repr

def DubboService.name (s : DubboService) : String := s.inner.name

def DubboService.package (s : DubboService) : String := s.inner.package

def DubboService.identifier (s : DubboService) : String := s.inner.proto_name

def DubboService.comment (s : DubboService) : List String := s.inner.comments.leading

/-- `DubboService::methods`: rebuilds each `prost_build::Method` field
by field (the source pushes a fresh `Method { .. }` per element). -/
def DubboService.methods (s : DubboService) : List DubboMethod :=
  s.inner.methods.map (fun m => DubboMethod.mk
    { name := m.name
      proto_name := m.proto_name
      comments :=
        { leading_detached := m.comments.leading_detached
          leading := m.comments.leading
          trailing := m.comments.trailing }
      input_type := m.input_type
      output_type := m.output_type
      input_proto_type := m.input_proto_type
      output_proto_type := m.output_proto_type
      options := m.options
      client_streaming := m.client_streaming
      server_streaming := m.server_streaming })

def DubboMethod.name (m : DubboMethod) : String := m.inner.name

def DubboMethod.identifier (m : DubboMethod) : String := m.inner.proto_name

/-- `DubboMethod::codec_path` returns a fixed serde codec reference. -/
def DubboMethod.codec_path (_ : DubboMethod) : String :=
  "triple::codec::serde_codec::SerdeCodec"

def DubboMethod.client_streaming (m : DubboMethod) : Bool := m.inner.client_streaming

def DubboMethod.server_streaming (m : DubboMethod) : Bool := m.inner.server_streaming

def DubboMethod.comment (m : DubboMethod) : List String := m.inner.comments.leading

/-- `DubboMethod::request_response_name`: resolves the input and output
type references via `convert_type`. -/
def DubboMethod.request_response_name (m : DubboMethod) (proto_path : String)
    (compile_well_known_types : Bool) : Option Tok × Option Tok :=
  (convert_type proto_path compile_well_known_types m.inner.input_proto_type m.inner.input_type,
   convert_type proto_path compile_well_known_types m.inner.output_proto_type m.inner.output_type)

/-- `impl Clone for DubboMethod`: rebuilds every field explicitly. -/
def DubboMethod.clone (m : DubboMethod) : DubboMethod :=
  DubboMethod.mk
    { name := m.inner.name
      proto_name := m.inner.proto_name
      comments :=
        { leading_detached := m.inner.comments.leading_detached
          leading := m.inner.comments.leading
          trailing := m.inner.comments.trailing }
      input_type := m.inner.input_type
      output_type := m.inner.output_type
      input_proto_type := m.inner.input_proto_type
      output_proto_type := m.inner.output_proto_type
      options := m.inner.options
      client_streaming := m.inner.client_streaming
      server_streaming := m.inner.server_streaming }

/-- `impl Clone for DubboService`: rebuilds every field explicitly,
including a fresh copy of every method. -/
def DubboService.clone (s : DubboService) : DubboService :=
  DubboService.mk
    { name := s.inner.name
      proto_name := s.inner.proto_name
      package := s.inner.package
      methods := s.inner.methods.map (fun m =>
        { name := m.name
          proto_name := m.proto_name
          comments :=
            { leading_detached := m.comments.leading_detached
              leading := m.comments.leading
              trailing := m.comments.trailing }
          input_type := m.input_type
          output_type := m.output_type
          input_proto_type := m.input_proto_type
          output_proto_type := m.output_proto_type
          options := m.options
          client_streaming := m.client_streaming
          server_streaming := m.server_streaming })
      comments :=
        { leading_detached := s.inner.comments.leading_detached
          leading := s.inner.comments.leading
          trailing := s.inner.comments.trailing }
      options := s.inner.options }

/-! ## Client stub emitter (src/dubbo-build/src/client.rs) -/

/-- `pub const CODEC_PATH: &str = "triple::codec::prost::ProstCodec";` -/
def CODEC_PATH : String := "triple::codec::prost::ProstCodec"

/-- The four RPC calling-convention shapes (which transport primitive
the emitted body forwards to: `unary`, `server_streaming`,
`client_streaming`, `bidi_streaming`). -/
inductive Shape where
  | unary
  | serverStreaming
  | clientStreaming
  | bidiStreaming
deriving DecidableEq, Repr

/-- The observable content of one emitted client method: the generated
function name, the RPC path literal, the selected calling-convention
shape, the codec reference bound in the body
(`syn::parse_str::<syn::Path>(CODEC_PATH).unwrap()`), and the resolved
request/response type references. -/
structure GeneratedMethod where
  name : String
  path : String
  shape : Shape
  codec : Option SynPath
  request : Option Tok
  response : Option Tok
deriving DecidableEq, Repr

/-- `fn generate_unary`. -/
def generate_unary (m : DubboMethod) (proto_path : String)
    (compile_well_known_types : Bool) (path : String) : GeneratedMethod :=
  let rr := m.request_response_name proto_path compile_well_known_types
  { name := m.name
    path := path
    shape := .unary
    codec := parsePath CODEC_PATH
    request := rr.1
    response := rr.2 }

/-- `fn generate_server_streaming`. -/
def generate_server_streaming (m : DubboMethod) (proto_path : String)
    (compile_well_known_types : Bool) (path : String) : GeneratedMethod :=
  let rr := m.request_response_name proto_path compile_well_known_types
  { name := m.name
    path := path
    shape := .serverStreaming
    codec := parsePath CODEC_PATH
    request := rr.1
    response := rr.2 }

/-- `fn generate_client_streaming`. -/
def generate_client_streaming (m : DubboMethod) (proto_path : String)
    (compile_well_known_types : Bool) (path : String) : GeneratedMethod :=
  let rr := m.request_response_name proto_path compile_well_known_types
  { name := m.name
    path := path
    shape := .clientStreaming
    codec := parsePath CODEC_PATH
    request := rr.1
    response := rr.2 }

/-- `fn generate_streaming`. -/
def generate_streaming (m : DubboMethod) (proto_path : String)
    (compile_well_known_types : Bool) (path : String) : GeneratedMethod :=
  let rr := m.request_response_name proto_path compile_well_known_types
  { name := m.name
    path := path
    shape := .bidiStreaming
    codec := parsePath CODEC_PATH
    request := rr.1
    response := rr.2 }

/-- The RPC path built per method inside `generate_methods`:
`format!("/{}{}{}/{}", package, sep, service.identifier(), method.identifier())`. -/
def method_path (package svcIdent mthIdent : String) : String :=
  "/" ++ package ++ (if package.isEmpty then "" else ".") ++ svcIdent ++ "/" ++ mthIdent

/-- The `match (method.client_streaming(), method.server_streaming())`
dispatch inside `generate_methods`. -/
def client_dispatch (m : DubboMethod) (proto_path : String)
    (compile_well_known_types : Bool) (path : String) : GeneratedMethod :=
  match m.client_streaming, m.server_streaming with
  | false, false => generate_unary m proto_path compile_well_known_types path
  | false, true => generate_server_streaming m proto_path compile_well_known_types path
  | true, false => generate_client_streaming m proto_path compile_well_known_types path
  | true, true => generate_streaming m proto_path compile_well_known_types path

/-- `fn generate_methods`: walks `service.methods()` in order and emits
one method per entry. -/
def generate_methods (service : DubboService) (emit_package : Bool)
    (proto_path : String) (compile_well_known_types : Bool) : List GeneratedMethod :=
  let package := if emit_package then service.package else ""
  service.methods.map (fun m =>
    client_dispatch m proto_path compile_well_known_types
      (method_path package service.identifier m.identifier))

/-! ## Generation orchestrator (src/dubbo-build/src/prost.rs) -/

/-- Modelled from the spec: `Attributes` is defined in the crate root
(`lib.rs`), which is not part of the available sources.  The spec
describes it as a mapping from a matching rule to ordered annotation
fragments with two lookup entry points (module-level and struct-level),
defaulting to empty. -/
structure Attributes where
  module_attributes : List (String × String)
  struct_attributes : List (String × String)
deriving DecidableEq, Repr

/-- Modelled from the spec: `Attributes::default()` is the empty mapping. -/
def Attributes.default : Attributes := ⟨[], []⟩

/-- `pub struct Builder` (paths carried as strings). -/
structure Builder where
  build_client : Bool
  build_server : Bool
  proto_path : String
  compile_well_known_types : Bool
  protoc_args : List String
  include_file : Option String
  output_dir : Option String
  server_attributes : Attributes
  client_attributes : Attributes
deriving DecidableEq, Repr

/-- `pub fn configure() -> Builder`. -/
def configure : Builder :=
  { build_client := true
    build_server := true
    proto_path := "super"
    protoc_args := []
    compile_well_known_types := false
    include_file := none
    output_dir := none
    server_attributes := Attributes.default
    client_attributes := Attributes.default }

/-- `pub struct SvcGenerator`: the builder plus the two accumulation
buffers.  A `TokenStream` buffer is modelled as the list of token chunks
extended into it; `is_empty` corresponds to `= []`. -/
structure SvcGenerator where
  builder : Builder
  clients : List String
  servers : List String
deriving DecidableEq, Repr

/-- `SvcGenerator::new`. -/
def SvcGenerator.new (builder : Builder) : SvcGenerator :=
  { builder := builder, clients := [], servers := [] }

/-- One `ServiceGenerator::generate` call.  The token streams produced
by `server::generate` / `client::generate` for the discovered service
are abstracted as the chunk arguments (their content does not influence
the buffer discipline; `server::generate` lives in `server.rs`, outside
the available sources). -/
def SvcGenerator.generateStep (g : SvcGenerator)
    (serverToks clientToks : List String) : SvcGenerator :=
  let g1 :=
    if g.builder.build_server then { g with servers := g.servers ++ serverToks } else g
  if g1.builder.build_client then { g1 with clients := g1.clients ++ clientToks } else g1

/-- `ServiceGenerator::finalize`.  The external `syn::parse2` /
`prettyplease::unparse` pair is abstracted as the parameters `parse2`
and `unparse` over an arbitrary AST type `F`; the
`.expect("invalid tokenstream")` panic is modelled as `none`. -/
def SvcGenerator.finalize (F : Type) (parse2 : List String → Option F)
    (unparse : F → String) (g : SvcGenerator) (buf : String) :
    Option (SvcGenerator × String) :=
  let afterClients : Option (SvcGenerator × String) :=
    if g.builder.build_client && !g.clients.isEmpty then
      match parse2 g.clients with
      | none => none
      | some ast => some ({ g with clients := [] }, buf ++ unparse ast)
    else some (g, buf)
  match afterClients with
  | none => none
  | some (g1, buf1) =>
    if g1.builder.build_server && !g1.servers.isEmpty then
      match parse2 g1.servers with
      | none => none
      | some ast => some ({ g1 with servers := [] }, buf1 ++ unparse ast)
    else some (g1, buf1)

/-- The generator states that can actually occur in a generation pass:
`SvcGenerator::new` followed by any number of `generate` calls. -/
inductive Reachable : SvcGenerator → Prop
  | new (builder : Builder) : Reachable (SvcGenerator.new builder)
  | step {g : SvcGenerator} (serverToks clientToks : List String) :
      Reachable g → Reachable (g.generateStep serverToks clientToks)

/-! ## Helper lemmas -/

theorem client_dispatch_name (m : DubboMethod) (pp : String) (c : Bool) (path : String) :
    (client_dispatch m pp c path).name = m.name := by
  cases h1 : m.client_streaming <;> cases h2 : m.server_streaming <;>
    simp [client_dispatch, h1, h2, generate_unary, generate_server_streaming,
      generate_client_streaming, generate_streaming]

theorem client_dispatch_path_eq (m : DubboMethod) (pp : String) (c : Bool) (path : String) :
    (client_dispatch m pp c path).path = path := by
  cases h1 : m.client_streaming <;> cases h2 : m.server_streaming <;>
    simp [client_dispatch, h1, h2, generate_unary, generate_server_streaming,
      generate_client_streaming, generate_streaming]

theorem client_dispatch_codec (m : DubboMethod) (pp : String) (c : Bool) (path : String) :
    (client_dispatch m pp c path).codec = parsePath CODEC_PATH := by
  cases h1 : m.client_streaming <;> cases h2 : m.server_streaming <;>
    simp [client_dispatch, h1, h2, generate_unary, generate_server_streaming,
      generate_client_streaming, generate_streaming]

theorem method_path_eq (package s m : String) :
    method_path package s m =
      if package = "" then "/" ++ s ++ "/" ++ m
      else "/" ++ package ++ "." ++ s ++ "/" ++ m := by
  by_cases h : package = ""
  · simp [method_path, h, String.isEmpty_iff, String.append_empty, String.empty_append]
  · simp [method_path, h, String.isEmpty_iff]

/-! ## Claims -/

/-- Claim C1: for every service and every method, the emitted RPC path
literal (with the package emitted, as the orchestrator always requests)
is exactly `"/" ++ package ++ "." ++ service.identifier ++ "/" ++
method.identifier` when the package is non-empty, and
`"/" ++ service.identifier ++ "/" ++ method.identifier` when the
package is empty, with no trimming and no case changes. -/
theorem rpc_path_literal (svc : DubboService) (proto_path : String) (cwkt : Bool) :
    (generate_methods svc true proto_path cwkt).map (fun g => g.path) =
      svc.inner.methods.map (fun m =>
        if svc.inner.package = "" then
          "/" ++ svc.inner.proto_name ++ "/" ++ m.proto_name
        else
          "/" ++ svc.inner.package ++ "." ++ svc.inner.proto_name ++ "/" ++ m.proto_name) := by
  simp only [generate_methods, DubboService.methods, List.map_map, if_pos]
  refine List.map_congr_left (fun m _ => ?_)
  simp only [Function.comp_apply, client_dispatch_path_eq, method_path_eq]
  rfl

/-- Claim C3: the `match` on the two streaming flags selects exactly one
of the four calling-convention shapes; the dispatch is total (it is a
function on all four boolean combinations) and exclusive (each shape is
selected by exactly its own combination). -/
theorem shape_dispatch_total_exclusive (m : DubboMethod) (pp : String) (c : Bool)
    (path : String) :
    ((client_dispatch m pp c path).shape = Shape.unary ↔
        m.client_streaming = false ∧ m.server_streaming = false)
  ∧ ((client_dispatch m pp c path).shape = Shape.serverStreaming ↔
        m.client_streaming = false ∧ m.server_streaming = true)
  ∧ ((client_dispatch m pp c path).shape = Shape.clientStreaming ↔
        m.client_streaming = true ∧ m.server_streaming = false)
  ∧ ((client_dispatch m pp c path).shape = Shape.bidiStreaming ↔
        m.client_streaming = true ∧ m.server_streaming = true) := by
  cases h1 : m.client_streaming <;> cases h2 : m.server_streaming <;>
    simp [client_dispatch, h1, h2, generate_unary, generate_server_streaming,
      generate_client_streaming, generate_streaming]

/-- Claim C7: the clone of a `DubboService` (and of a `DubboMethod`) is
structurally equal to the original in every field; cloning is a pure
function of the source, so constructing the clone cannot mutate it. -/
theorem clone_structural_identity (s : DubboService) (m : DubboMethod) :
    s.clone = s ∧ m.clone = m := by
  refine ⟨?_, rfl⟩
  have h : s.clone = DubboService.mk
      { name := s.inner.name
        proto_name := s.inner.proto_name
        package := s.inner.package
        methods := s.inner.methods.map id
        comments := s.inner.comments
        options := s.inner.options } := rfl
  rw [h, List.map_id]

/-- Claim C8: for every service with N methods, the generated client
module contains exactly N callable operations, one per method, in
declaration order, each named after the method's `name`. -/
theorem client_one_operation_per_method (svc : DubboService) (e : Bool) (pp : String)
    (c : Bool) :
    (generate_methods svc e pp c).map (fun g => g.name) =
      svc.inner.methods.map (fun m => m.name)
  ∧ (generate_methods svc e pp c).length = svc.inner.methods.length := by
  constructor
  · simp only [generate_methods, DubboService.methods, List.map_map]
    refine List.map_congr_left (fun m _ => ?_)
    simp [Function.comp_apply, client_dispatch_name, DubboMethod.name]
  · simp [generate_methods, DubboService.methods]

/-- Claim C9: every generated client method, regardless of streaming
shape, binds the hard-coded `CODEC_PATH`
(`triple::codec::prost::ProstCodec`, parsed as a path); the
`DubboMethod::codec_path` accessor returns the serde codec and is never
what the client emitter binds, so the bound codec differs from it for
every method. -/
theorem client_codec_hardcoded (m : DubboMethod) (pp : String) (c : Bool) (path : String) :
    (client_dispatch m pp c path).codec = parsePath CODEC_PATH
  ∧ (parsePath CODEC_PATH).map renderPathStr = some CODEC_PATH
  ∧ DubboMethod.codec_path m = "triple::codec::serde_codec::SerdeCodec"
  ∧ CODEC_PATH ≠ DubboMethod.codec_path m := by
  exact ⟨client_dispatch_codec m pp c path, by decide, rfl,
    show CODEC_PATH ≠ "triple::codec::serde_codec::SerdeCodec" by decide⟩

/-- Claim C10: `configure()` returns a builder with `build_client` and
`build_server` true, `proto_path` `"super"`,
`compile_well_known_types` false, no output directory, and empty client
and server attribute mappings. -/
theorem configure_defaults :
    configure.build_client = true
  ∧ configure.build_server = true
  ∧ configure.proto_path = "super"
  ∧ configure.compile_well_known_types = false
  ∧ configure.output_dir = none
  ∧ configure.client_attributes = Attributes.default
  ∧ configure.server_attributes = Attributes.default
  ∧ Attributes.default.module_attributes = []
  ∧ Attributes.default.struct_attributes = [] := by
  decide

/-! ## Type resolution: claimed rules, counterexample and amended rules -/

/-- The resolution procedure exactly as claimed: five ordered rules with
first match winning, the fifth rule emitting the concatenation
`proto_path + "." + in-language-name` parsed as a structured path. -/
def claimed_resolution (proto_path : String) (compile_well_known_types : Bool)
    (proto_type rust_type : String) : Option Tok :=
  if is_google_type proto_type && !compile_well_known_types then
    some (Tok.raw rust_type.data)
  else if strStartsWith rust_type "::" then
    some (Tok.raw rust_type.data)
  else if rust_type == "()" then
    some (Tok.raw rust_type.data)
  else if strStartsWith rust_type "crate::" then
    some (Tok.raw rust_type.data)
  else
    (parsePath (proto_path ++ "." ++ rust_type)).map Tok.path

/-- The claimed resolution procedure amended to what the code does: the
fifth rule concatenates with the in-language namespace separator `::`
(not `.`), and the fourth rule parses the module-relative name as a
structured path (aborting when it is unparseable) whose token text is
the input verbatim. -/
def amended_resolution (proto_path : String) (compile_well_known_types : Bool)
    (proto_type rust_type : String) : Option Tok :=
  if is_google_type proto_type && !compile_well_known_types then
    some (Tok.raw rust_type.data)
  else if strStartsWith rust_type "::" then
    some (Tok.raw rust_type.data)
  else if rust_type == "()" then
    some (Tok.raw rust_type.data)
  else if strStartsWith rust_type "crate::" then
    (parsePath rust_type).map Tok.path
  else
    (parsePath (proto_path ++ "::" ++ rust_type)).map Tok.path

/-- Claim C2 counterexample: at `proto_path = "super"` with the plain
in-language name `"SomeReply"`, the code resolves to the structured path
`super::SomeReply`, while the claimed rule 5 result
`"super.SomeReply"` is not what is emitted (it does not even parse as a
path, so the claimed procedure aborts). -/
theorem claimed_resolution_counterexample :
    convert_type "super" false "x" "SomeReply"
      ≠ claimed_resolution "super" false "x" "SomeReply"
  ∧ (convert_type "super" false "x" "SomeReply").map renderTokStr
      = some "super::SomeReply"
  ∧ (claimed_resolution "super" false "x" "SomeReply").map renderTokStr = none := by
  refine ⟨by decide, by decide, by decide⟩

/-- Claim C2 (amended): type resolution applies the five ordered rules
with first match winning, where rule 5 concatenates
`proto_path ++ "::" ++ name` and parses the result as a structured
path, and rule 4 passes the `crate::`-prefixed name through the
structured-path parser (its token text is the input verbatim). -/
theorem resolution_five_ordered_rules (pp : String) (cwkt : Bool) (pt rt : String) :
    convert_type pp cwkt pt rt = amended_resolution pp cwkt pt rt := by
  have hany : (NON_PATH_TYPE_ALLOWLIST.any fun t => t == rt) = (rt == "()") := by
    simp only [NON_PATH_TYPE_ALLOWLIST, List.any_cons, List.any_nil, Bool.or_false]
    cases h : (rt == "()") with
    | true =>
      have he : rt = "()" := by simpa using h
      simp [he]
    | false =>
      have hne : rt ≠ "()" := by simpa using h
      have hne2 : ("()" : String) ≠ rt := fun hh => hne hh.symm
      simp [beq_eq_false_iff_ne, hne2]
  unfold convert_type amended_resolution
  cases hA : (is_google_type pt && !cwkt) <;>
  cases hB : strStartsWith rt "::" <;>
  cases hC : (rt == "()") <;>
    simp [hA, hB, hC, hany]

/-- The verbatim-eligibility hypothesis of claim C4: the name satisfies
one of the four verbatim rules. -/
def verbatim_eligible (proto_type rust_type : String)
    (compile_well_known_types : Bool) : Prop :=
  (is_google_type proto_type = true ∧ compile_well_known_types = false)
  ∨ strStartsWith rust_type "::" = true
  ∨ rust_type = "()"
  ∨ strStartsWith rust_type "crate::" = true

/-- Claim C4: type resolution is idempotent on verbatim-eligible names:
whenever resolution succeeds on such a name, the resolved reference
renders back to the input name, and resolving that rendered name again
under the same `proto_path` and `compile_well_known_types` yields the
identical reference. -/
theorem resolution_idempotent_on_verbatim (pp pt rt : String) (cwkt : Bool)
    (h : verbatim_eligible pt rt cwkt) (t : Tok)
    (ht : convert_type pp cwkt pt rt = some t) :
    renderTokStr t = rt ∧ convert_type pp cwkt pt (renderTokStr t) = some t := by
  have hrender : renderTokStr t = rt := by
    unfold convert_type at ht
    by_cases h1 : ((is_google_type pt && !cwkt) || strStartsWith rt "::"
        || NON_PATH_TYPE_ALLOWLIST.any (fun x => x == rt)) = true
    · rw [if_pos h1] at ht
      cases ht
      rfl
    · rcases h with ⟨hg, hcw⟩ | hss | hunit | hcrate
      · exact absurd (by simp [hg, hcw]) h1
      · exact absurd (by simp [hss]) h1
      · exact absurd (by simp [NON_PATH_TYPE_ALLOWLIST, hunit]) h1
      · rw [if_neg h1, if_pos hcrate] at ht
        rcases Option.map_eq_some'.mp ht with ⟨p, hp, hpt⟩
        subst hpt
        show (⟨renderPath p⟩ : String) = rt
        rw [renderPath_of_parse rt.data p hp]
  exact ⟨hrender, by rw [hrender]; exact ht⟩

/-- Witness for claim C4 at the allow-listed unit type. -/
theorem resolution_idempotent_on_verbatim_witness :
    renderTokStr (Tok.raw "()".data) = "()"
  ∧ convert_type "super" false ".google.protobuf.Empty" (renderTokStr (Tok.raw "()".data))
      = some (Tok.raw "()".data) :=
  resolution_idempotent_on_verbatim "super" ".google.protobuf.Empty" "()" false
    (Or.inr (Or.inr (Or.inl rfl))) (Tok.raw "()".data) (by decide)

/-! ## Orchestrator buffer discipline -/

/-- In every reachable generator state, a role whose build flag is off
has an empty buffer (`generate` only extends a buffer behind its flag). -/
theorem reachable_buffers (g : SvcGenerator) (h : Reachable g) :
    (g.builder.build_client = false → g.clients = [])
  ∧ (g.builder.build_server = false → g.servers = []) := by
  induction h with
  | new b => simp [SvcGenerator.new]
  | step st ct hg ih =>
    rcases ih with ⟨ihc, ihs⟩
    rename_i g0
    cases hbs : g0.builder.build_server <;> cases hbc : g0.builder.build_client <;>
      simp_all [SvcGenerator.generateStep, hbs, hbc]

/-- Claim C5: at finalization, for each role buffer in turn (client
first, then server): a non-empty buffer is parsed, canonically
formatted (`unparse`), appended to the output string and reset to
empty; an empty buffer leaves the output unchanged for that role.
Stated for reachable generator states under the hypothesis that the
accumulated text of each non-empty buffer parses. -/
theorem finalize_flushes_buffers (F : Type) (parse2 : List String → Option F)
    (unparse : F → String) (g : SvcGenerator) (hg : Reachable g) (buf : String)
    (astC astS : F)
    (hc : g.clients ≠ [] → parse2 g.clients = some astC)
    (hs : g.servers ≠ [] → parse2 g.servers = some astS) :
    SvcGenerator.finalize F parse2 unparse g buf =
      some ({ g with clients := [], servers := [] },
        (buf ++ (if g.clients = [] then "" else unparse astC))
          ++ (if g.servers = [] then "" else unparse astS)) := by
  obtain ⟨ic, is2⟩ := reachable_buffers g hg
  rcases g with ⟨b, cs, ss⟩
  simp only at ic is2 hc hs
  by_cases hce : cs = []
  · subst hce
    by_cases hse : ss = []
    · subst hse
      simp [SvcGenerator.finalize, String.append_empty]
    · have hbs : b.build_server = true := by
        cases hb : b.build_server
        · exact absurd (is2 hb) hse
        · rfl
      simp [SvcGenerator.finalize, hbs, hse, hs hse, String.append_empty]
  · have hbc : b.build_client = true := by
      cases hb : b.build_client
      · exact absurd (ic hb) hce
      · rfl
    by_cases hse : ss = []
    · subst hse
      simp [SvcGenerator.finalize, hbc, hce, hc hce, String.append_empty]
    · have hbs : b.build_server = true := by
        cases hb : b.build_server
        · exact absurd (is2 hb) hse
        · rfl
      simp [SvcGenerator.finalize, hbc, hbs, hce, hse, hc hce, hs hse]

/-- Witness for claim C5: one `generate` call under the default
configuration, then finalize; both buffers are flushed in order and
reset. -/
theorem finalize_flushes_buffers_witness :
    SvcGenerator.finalize (List String) (fun toks => some toks)
        (fun l => String.join l)
        ((SvcGenerator.new configure).generateStep ["srv"] ["cli"]) "out"
      = some ({ builder := configure, clients := [], servers := [] }, "outclisrv") := by
  have h := finalize_flushes_buffers (List String) (fun toks => some toks)
    (fun l => String.join l)
    ((SvcGenerator.new configure).generateStep ["srv"] ["cli"])
    (Reachable.step ["srv"] ["cli"] (Reachable.new configure)) "out"
    ["cli"] ["srv"] (fun _ => rfl) (fun _ => rfl)
  simpa [SvcGenerator.generateStep, SvcGenerator.new, configure, String.join] using h

/-- Claim C6: a failed structured-path parse of a resolved type name,
and a failed parse of an accumulated buffer at finalization, each abort
generation (`none`); the failure propagates and is never replaced by a
fallback value. -/
theorem parse_failure_aborts :
    (∀ (pp : String) (cwkt : Bool) (pt rt : String),
        ((is_google_type pt && !cwkt) || strStartsWith rt "::"
          || NON_PATH_TYPE_ALLOWLIST.any (fun t => t == rt)) = false →
        strStartsWith rt "crate::" = false →
        parsePath (pp ++ "::" ++ rt) = none →
        convert_type pp cwkt pt rt = none)
  ∧ (∀ (pp : String) (cwkt : Bool) (pt rt : String),
        ((is_google_type pt && !cwkt) || strStartsWith rt "::"
          || NON_PATH_TYPE_ALLOWLIST.any (fun t => t == rt)) = false →
        strStartsWith rt "crate::" = true →
        parsePath rt = none →
        convert_type pp cwkt pt rt = none)
  ∧ (∀ (F : Type) (parse2 : List String → Option F) (unparse : F → String)
        (g : SvcGenerator) (buf : String),
        g.builder.build_client = true → g.clients ≠ [] → parse2 g.clients = none →
        SvcGenerator.finalize F parse2 unparse g buf = none)
  ∧ (∀ (F : Type) (parse2 : List String → Option F) (unparse : F → String)
        (g : SvcGenerator) (buf : String),
        g.builder.build_server = true → g.servers ≠ [] → parse2 g.servers = none →
        SvcGenerator.finalize F parse2 unparse g buf = none) := by
  refine ⟨?_, ?_, ?_, ?_⟩
  · intro pp cwkt pt rt h1 h2 h3
    simp [convert_type, h1, h2, h3]
  · intro pp cwkt pt rt h1 h2 h3
    simp [convert_type, h1, h2, h3]
  · intro F parse2 unparse g buf hbc hne hp
    simp [SvcGenerator.finalize, hbc, hne, hp]
  · intro F parse2 unparse g buf hbs hne hp
    rcases g with ⟨b, cs, ss⟩
    simp only at hbs hne hp
    by_cases hcc : (b.build_client && !cs.isEmpty) = true
    · cases hpc : parse2 cs with
      | none => simp [SvcGenerator.finalize, hcc, hpc]
      | some a => simp [SvcGenerator.finalize, hcc, hpc, hbs, hne, hp]
    · simp [SvcGenerator.finalize, hcc, hbs, hne, hp]

/-- Witness for claim C6: a rule-5 name whose concatenation does not
parse, a `crate::` name that does not parse, and finalize calls whose
client (resp. server) buffer fails to parse, all abort. -/
theorem parse_failure_aborts_witness :
    convert_type "super" false "x" "123" = none
  ∧ convert_type "super" false "x" "crate::1" = none
  ∧ SvcGenerator.finalize Unit (fun _ => none) (fun _ => "")
      ⟨configure, ["x"], []⟩ "" = none
  ∧ SvcGenerator.finalize Unit (fun _ => none) (fun _ => "")
      ⟨configure, [], ["y"]⟩ "" = none :=
  ⟨parse_failure_aborts.1 "super" false "x" "123" (by decide) (by decide) (by decide),
   parse_failure_aborts.2.1 "super" false "x" "crate::1" (by decide) (by decide) (by decide),
   parse_failure_aborts.2.2.1 Unit (fun _ => none) (fun _ => "")
     ⟨configure, ["x"], []⟩ "" rfl (by simp) rfl,
   parse_failure_aborts.2.2.2 Unit (fun _ => none) (fun _ => "")
     ⟨configure, [], ["y"]⟩ "" rfl (by simp) rfl⟩

end DubboBuild
